import Mathlib

/-!
Shallow embedding of the RS-release validation engine of
`run_release_in_embassy/validate_rs_release_files.py`.

Files are modelled as lists of their lines.  Shell pipelines on flat files
(`zcat | grep | cut | sed`, `sort | uniq`, `comm -31`, `sort -o`) are modelled
as the corresponding list transformations.  RS identifier lines that are
guaranteed to be decimal numerals are modelled as natural numbers.  Mongo
aggregation pipelines are modelled as functions over explicit record lists,
one list per collection.
-/

namespace EvaAccession

/-- Character-level test for the filter `grep -E "^[0-9]+$"`:
the line is a nonempty string consisting only of decimal digits. -/
def isNumericLine (s : String) : Bool :=
  !s.data.isEmpty && s.data.all Char.isDigit

/-- Character-level global deletion of the substring "rs",
modelling `sed s/rs//g` (left-to-right, non-overlapping, no rescan across a
deletion). -/
def stripRsChars : List Char → List Char
  | [] => []
  | 'r' :: 's' :: rest => stripRsChars rest
  | c :: rest => c :: stripRsChars rest

/-- `sed s/rs//g` applied to one line. -/
def stripRs (s : String) : String :=
  String.mk (stripRsChars s.data)

/-- `cut -f<i+1>`: the (i+1)-st tab-separated field of the line; a line with
no tab delimiter is passed through whole (cut's behaviour without `-s`), and
a line with too few fields yields the empty field. -/
def cutField (i : Nat) (s : String) : String :=
  if s.data.contains '\t' then
    ((s.data.splitOn '\t').map (fun cs => String.mk cs)).getD i ""
  else s

/-- `grep -v ^#`: keep the lines that do not start with the character '#'. -/
def dropHeaderLines (lines : List String) : List String :=
  lines.filter (fun l => !(l.data.headD ' ' == '#'))

/-- Extraction rule shared by the three VCF-style release files:
`zcat {f} | grep -v ^# | cut -f3 | sed s/rs//g`. -/
def extractVcfIds (lines : List String) : List String :=
  (dropHeaderLines lines).map (fun l => stripRs (cutField 2 l))

/-- `sort | uniq` (also `sort -u`): a sorted copy of the lines with duplicates
removed.  Sorting is modelled by insertion sort on the linear order of `α`. -/
def sortUniq {α : Type} [LinearOrder α] [DecidableEq α] (lines : List α) : List α :=
  (List.insertionSort (fun a b => a ≤ b) lines).dedup

/-- `generate_unique_rs_ids_file`: concatenate the extractions of the five
release-side source files into the all-IDs file, then `sort | uniq` into the
unique-IDs file.  The merged-deprecated file contributes both of its two
tab-separated columns, the deprecated file contributes its whole lines. -/
def generate_unique_rs_ids_file (active merged multimap mergedDeprecated deprecated : List String) :
    List String :=
  sortUniq (extractVcfIds active ++ extractVcfIds merged ++ extractVcfIds multimap
    ++ mergedDeprecated.map (fun l => stripRs (cutField 0 l))
    ++ mergedDeprecated.map (fun l => stripRs (cutField 1 l))
    ++ deprecated.map stripRs)

/-- `comm -31 a b` on sorted deduplicated files: the lines unique to the
second file `b` (column 1, lines unique to `a`, and column 3, common lines,
are both suppressed). -/
def comm31 (a b : List String) : List String :=
  b.filter (fun x => decide (x ∉ a))

/-- `diff_release_ids_against_mongo_rs_ids`:
`comm -31 unique_release_ids unique_mongo_ids | grep -E "^[0-9]+$"`. -/
def diff_release_ids_against_mongo_rs_ids (unique_release_ids unique_mongo_ids : List String) :
    List String :=
  (comm31 unique_release_ids unique_mongo_ids).filter isNumericLine

/-- Fuel-driven worker for `read_next_batch_of_missing_ids`; the fuel is an
upper bound on the number of lines still to be read and only makes the
recursion structural. -/
def readBatchesAux {α : Type} : Nat → List α → List (List α)
  | _, [] => []
  | 0, l => [l]
  | fuel + 1, a :: rest => ((a :: rest).take 1000) :: readBatchesAux fuel ((a :: rest).drop 1000)

/-- `read_next_batch_of_missing_ids`: split the lines of the missing-IDs file
into successive batches of `num_lines_to_read = 1000` lines (the final batch
may be shorter; an empty file yields no batch). -/
def read_next_batch_of_missing_ids {α : Type} (lines : List α) : List (List α) :=
  readBatchesAux lines.length lines

/-- One inactive object nested in a submitted-variant operation record:
its clustered-variant accession `rs` and its `ref`/`alt` alleles. -/
structure InactiveObject where
  rs : Nat
  ref : String
  alt : String
deriving DecidableEq

/-- A record of `submittedVariantOperationEntity` /
`dbsnpSubmittedVariantOperationEntity` as seen by the queries. -/
structure SvoeRecord where
  eventType : String
  reason : String
  inactiveObjects : List InactiveObject
deriving DecidableEq

/-- A record of `clusteredVariantEntity` / `dbsnpClusteredVariantEntity`
as seen by the tandem-repeat query. -/
structure CveRecord where
  type : String
  accession : Nat
deriving DecidableEq

/-- A record of `submittedVariantEntity` / `dbsnpSubmittedVariantEntity`
as seen by the non-nucleotide query. -/
structure SveRecord where
  rs : Nat
  ref : String
  alt : String
deriving DecidableEq

/-- The six collections the attribution categories query, in the release
database of the temporary Mongo instance. -/
structure MongoStore where
  dbsnpSvoe : List SvoeRecord
  svoe : List SvoeRecord
  dbsnpCve : List CveRecord
  cve : List CveRecord
  dbsnpSve : List SveRecord
  sve : List SveRecord
deriving DecidableEq

/-- Character-level test for the regex `^[acgtnACGTN]+$`. -/
def isNucleotideOnly (s : String) : Bool :=
  !s.data.isEmpty && s.data.all (fun c => "acgtnACGTN".data.contains c)

/-- Character-level `String.startsWith`, modelling the anchored regex
`^Declustered.*` on the `reason` field. -/
def startsWithChars : List Char → List Char → Bool
  | [], _ => true
  | _ :: _, [] => false
  | p :: ps, c :: cs => p == c && startsWithChars ps cs

/-- Shared shape of the five aggregation pipelines: `$match` combines a static
predicate with an `$in` test of the candidate list against the id values at
the query's id attribute path (`idsOf`, the list of values found at that path,
a singleton for scalar paths); `$project` keeps the value at the projection
path; the `$group`/`$addToSet`/`$unwind` tail deduplicates the projected
values. -/
def run_in_query {Rec Res : Type} [DecidableEq Res] (staticMatch : Rec → Bool)
    (idsOf : Rec → List Nat) (proj : Rec → Res) (coll : List Rec) (inList : List Nat) :
    List Res :=
  ((coll.filter (fun r => staticMatch r && decide (∃ i ∈ idsOf r, i ∈ inList))).map proj).dedup

/-- `get_merged_ss_query` on one SVOE collection: match `eventType = MERGED`
with `inactiveObjects.rs $in` the candidate list, project the array
`$inactiveObjects.rs`, deduplicate. -/
def run_merged_ss_query : List SvoeRecord → List Nat → List (List Nat) :=
  run_in_query (fun r => r.eventType == "MERGED")
    (fun r => r.inactiveObjects.map InactiveObject.rs)
    (fun r => r.inactiveObjects.map InactiveObject.rs)

/-- `get_declustered_ss_query` on one SVOE collection: match
`eventType = UPDATED` with `reason` matching `^Declustered.*` and
`inactiveObjects.rs $in` the candidate list, project `$inactiveObjects.rs`,
deduplicate. -/
def run_declustered_ss_query : List SvoeRecord → List Nat → List (List Nat) :=
  run_in_query
    (fun r => r.eventType == "UPDATED" && startsWithChars "Declustered".data r.reason.data)
    (fun r => r.inactiveObjects.map InactiveObject.rs)
    (fun r => r.inactiveObjects.map InactiveObject.rs)

/-- `get_tandem_repeat_rs_query` on one CVE collection: match
`type = TANDEM_REPEAT` with scalar `accession $in` the candidate list,
project `$accession`, deduplicate. -/
def run_tandem_repeat_query : List CveRecord → List Nat → List Nat :=
  run_in_query (fun r => r.type == "TANDEM_REPEAT")
    (fun r => [r.accession]) CveRecord.accession

/-- `get_rs_with_non_nucleotide_letters_query_SVE` on one SVE collection:
match scalar `rs $in` the candidate list and `$or` of `ref`/`alt` not
matching `^[acgtnACGTN]+$`, project `$rs`, deduplicate. -/
def run_non_nucleotide_sve_query : List SveRecord → List Nat → List Nat :=
  run_in_query (fun r => !isNucleotideOnly r.ref || !isNucleotideOnly r.alt)
    (fun r => [r.rs]) SveRecord.rs

/-- `get_rs_with_non_nucleotide_letters_query_SVOE` on one SVOE collection:
match `inactiveObjects.rs $in` the candidate list and `$or` of
`inactiveObjects.ref`/`inactiveObjects.alt` under `$not` of the nucleotide
regex (an array path under `$not` matches when no array element matches the
regex), project `$inactiveObjects.rs`, deduplicate. -/
def run_non_nucleotide_svoe_query : List SvoeRecord → List Nat → List (List Nat) :=
  run_in_query
    (fun r => !(r.inactiveObjects.any (fun io => isNucleotideOnly io.ref))
      || !(r.inactiveObjects.any (fun io => isNucleotideOnly io.alt)))
    (fun r => r.inactiveObjects.map (fun io => io.rs))
    (fun r => r.inactiveObjects.map (fun io => io.rs))

/-- `get_ids_from_mongo_for_category`: for each batch of at most 1000
candidate lines, set the batch as the `$in` list and run the aggregate query
against each collection handle in turn, appending one output line per query
result (for `inactiveObjects` paths the source writes
`elem["accession"][0]`, for scalar paths `elem["accession"]`; the `extract`
argument is that per-result line). -/
def get_ids_from_mongo_for_category {Rec Res : Type} (missing_ids : List Nat)
    (collections : List (List Rec)) (query : List Rec → List Nat → List Res)
    (extract : Res → Nat) : List Nat :=
  (read_next_batch_of_missing_ids missing_ids).flatMap (fun batch =>
    collections.flatMap (fun coll => (query coll batch).map extract))

/-- `get_rs_with_merged_ss`: the merged-SS query over
`[dbsnpSubmittedVariantOperationEntity, submittedVariantOperationEntity]`,
taking element 0 of each projected accession array. -/
def get_rs_with_merged_ss (missing : List Nat) (db : MongoStore) : List Nat :=
  get_ids_from_mongo_for_category missing [db.dbsnpSvoe, db.svoe]
    run_merged_ss_query (fun a => a.headD 0)

/-- `get_rs_with_declustered_ss`: the declustered-SS query over
`[dbsnpSubmittedVariantOperationEntity, submittedVariantOperationEntity]`,
taking element 0 of each projected accession array. -/
def get_rs_with_declustered_ss (missing : List Nat) (db : MongoStore) : List Nat :=
  get_ids_from_mongo_for_category missing [db.dbsnpSvoe, db.svoe]
    run_declustered_ss_query (fun a => a.headD 0)

/-- `get_rs_with_tandem_repeat_type`: the tandem-repeat query over
`[dbsnpClusteredVariantEntity, clusteredVariantEntity]`. -/
def get_rs_with_tandem_repeat_type (missing : List Nat) (db : MongoStore) : List Nat :=
  get_ids_from_mongo_for_category missing [db.dbsnpCve, db.cve]
    run_tandem_repeat_query (fun a => a)

/-- `get_rs_with_non_nucleotide_letters`: run the SVE-side query over
`[dbsnpSubmittedVariantEntity, submittedVariantEntity]` and the SVOE-side
query over the two operation collections, then
`cat sve_results svoe_results | sort | uniq`. -/
def get_rs_with_non_nucleotide_letters (missing : List Nat) (db : MongoStore) : List Nat :=
  sortUniq (get_ids_from_mongo_for_category missing [db.dbsnpSve, db.sve]
      run_non_nucleotide_sve_query (fun a => a)
    ++ get_ids_from_mongo_for_category missing [db.dbsnpSvoe, db.svoe]
      run_non_nucleotide_svoe_query (fun a => a.headD 0))

/-- Modelled from the spec: `ebi_eva_common_pyutils.file_utils.file_diff`
with `FileDiffOption.NOT_IN` is not part of this repository; per the spec's
subtraction contract it keeps the lines of the first file that are not
present in the second file. -/
def file_diff_not_in (a b : List Nat) : List Nat :=
  a.filter (fun x => decide (x ∉ b))

/-- `sort -o f f`: sort a file of RS-ID lines in place. -/
def sortFile (l : List Nat) : List Nat :=
  List.insertionSort (fun a b => a ≤ b) l

/-- `get_residual_missing_rs_ids_file`: sort the residual file in place, sort
the attributed file in place, write the `NOT_IN` diff of the two sorted files
to a temp file and move it onto the residual file.  First component: the new
contents of the residual file; second component: the contents of the
attributed file after its in-place sort. -/
def get_residual_missing_rs_ids_file (rs_still_missing attributed : List Nat) :
    List Nat × List Nat :=
  (file_diff_not_in (sortFile rs_still_missing) (sortFile attributed),
    sortFile attributed)

/-- The artifacts of `get_missing_ids_attributions`: the four per-category
output files, the final residual file, the count the source takes with
`wc -l < missing_ids_file`, and whether the final check raised. -/
structure AttributionRun where
  merged_ss_file : List Nat
  declustered_ss_file : List Nat
  tandem_repeat_file : List Nat
  non_nucleotide_file : List Nat
  rs_still_missing_file : List Nat
  num_unattributed_missing_rs_ids : Nat
  raised : Bool
deriving DecidableEq

/-- Contents of the `rs_still_missing` file after the first subtraction
(`Residual RS IDs = (Residual RS IDs so far) - (RS with merged SS)`); the
residual file starts as a copy (`cp`) of the missing-IDs file. -/
def residual_after_merged (missing : List Nat) (db : MongoStore) : List Nat :=
  (get_residual_missing_rs_ids_file missing (get_rs_with_merged_ss missing db)).1

/-- Contents of the `rs_still_missing` file after the second subtraction
(declustered SS, queried against the residual left by the merged-SS step). -/
def residual_after_declustered (missing : List Nat) (db : MongoStore) : List Nat :=
  (get_residual_missing_rs_ids_file (residual_after_merged missing db)
    (get_rs_with_declustered_ss (residual_after_merged missing db) db)).1

/-- Contents of the `rs_still_missing` file after the third (and last)
subtraction (tandem repeats).  The non-nucleotide category runs after this
point but its results are never subtracted from the residual file. -/
def residual_after_tandem (missing : List Nat) (db : MongoStore) : List Nat :=
  (get_residual_missing_rs_ids_file (residual_after_declustered missing db)
    (get_rs_with_tandem_repeat_type (residual_after_declustered missing db) db)).1

/-- `get_missing_ids_attributions`: copy the missing-IDs file into the
residual file, then alternate category query and residual subtraction for
merged SS, declustered SS and tandem repeats; run the non-nucleotide category
last without any subtraction after it; finally count
`wc -l < missing_ids_file` (the original missing-IDs file, which no step
rewrites) and raise when that count is positive.  Per-category files record
what is on disk at the end of the run: the first three were sorted in place
by their subtraction step, the non-nucleotide file is written sorted. -/
def get_missing_ids_attributions (missing_ids : List Nat) (db : MongoStore) : AttributionRun :=
  { merged_ss_file :=
      (get_residual_missing_rs_ids_file missing_ids (get_rs_with_merged_ss missing_ids db)).2
    declustered_ss_file :=
      (get_residual_missing_rs_ids_file (residual_after_merged missing_ids db)
        (get_rs_with_declustered_ss (residual_after_merged missing_ids db) db)).2
    tandem_repeat_file :=
      (get_residual_missing_rs_ids_file (residual_after_declustered missing_ids db)
        (get_rs_with_tandem_repeat_type (residual_after_declustered missing_ids db) db)).2
    non_nucleotide_file := get_rs_with_non_nucleotide_letters (residual_after_tandem missing_ids db) db
    rs_still_missing_file := residual_after_tandem missing_ids db
    num_unattributed_missing_rs_ids := missing_ids.length
    raised := decide (0 < missing_ids.length) }

/-- How the Python process ends: `sys.exit(code)`, or an exception that
escapes `validate_rs_release_files` (the interpreter then prints a traceback
and the process exits with a non-zero status). -/
inductive ProcessOutcome where
  | exited (code : Int)
  | crashed (pythonError : String)
deriving DecidableEq

/-- `int(line.strip())` on a line already guaranteed by the numeric filter to
be a decimal numeral. -/
def parseIdLine (s : String) : Nat :=
  s.data.foldl (fun n c => n * 10 + (c.toNat - 48)) 0

/-- `validate_rs_release_files`, parametrised by the five release-side input
files, the raw lines mongoexport leaves in the store-side export file, and the
store contents.  The try-block builds the store-side unique file (`sort -u`),
the release-side unique file, diffs them and runs the attributions; the
except-block assigns `exit_code = -1`; the finally-block evaluates
`str(exit_code)` and calls `sys.exit(exit_code)`.  On the success path
`exit_code` was never assigned, so the finally-block itself raises
`UnboundLocalError` and the process crashes. -/
def validate_rs_release_files (active merged multimap mergedDeprecated deprecated : List String)
    (mongoExportLines : List String) (db : MongoStore) : ProcessOutcome :=
  let mongo_unique_rs_ids := sortUniq mongoExportLines
  let unique_release_rs_ids :=
    generate_unique_rs_ids_file active merged multimap mergedDeprecated deprecated
  let missing_rs_ids :=
    diff_release_ids_against_mongo_rs_ids unique_release_rs_ids mongo_unique_rs_ids
  let run := get_missing_ids_attributions (missing_rs_ids.map parseIdLine) db
  let exit_code : Option Int := if run.raised then some (-1) else none
  match exit_code with
  | some code => ProcessOutcome.exited code
  | none => ProcessOutcome.crashed "UnboundLocalError: local variable exit_code referenced before assignment"

/-- A store with all six collections empty. -/
def emptyStore : MongoStore :=
  { dbsnpSvoe := [], svoe := [], dbsnpCve := [], cve := [], dbsnpSve := [], sve := [] }

/-- Modelled from the spec: the matched set "a single unbounded query would
return", i.e. each collection queried once with the entire candidate list as
the `$in` list and no batching, results merged across collections. -/
def single_unbounded_query_results {Rec Res : Type} (missing : List Nat)
    (collections : List (List Rec)) (query : List Rec → List Nat → List Res)
    (extract : Res → Nat) : List Nat :=
  collections.flatMap (fun coll => (query coll missing).map extract)

/-- A store whose only record is a MERGED submitted-variant operation whose
inactive object carries RS ID 4: the merged-SS category attributes 4. -/
def dbMergedOnly : MongoStore :=
  { emptyStore with
      svoe := [{ eventType := "MERGED", reason := "",
                 inactiveObjects := [{ rs := 4, ref := "A", alt := "C" }] }] }

/-- A store in which both clustered-variant collections hold a TANDEM_REPEAT
record with accession 4. -/
def dbTandemDup : MongoStore :=
  { emptyStore with
      dbsnpCve := [{ type := "TANDEM_REPEAT", accession := 4 }],
      cve := [{ type := "TANDEM_REPEAT", accession := 4 }] }

/-- A store whose only record is a submitted variant with RS ID 4 and a
non-nucleotide reference allele: only the fourth (non-nucleotide) category
attributes 4, and that category is never subtracted from the residual. -/
def dbNonNucOnly : MongoStore :=
  { emptyStore with sve := [{ rs := 4, ref := "Z", alt := "A" }] }

/-! Supporting lemmas. -/

theorem readBatchesAux_flatten {α : Type} :
    ∀ (fuel : Nat) (l : List α), l.length ≤ fuel → (readBatchesAux fuel l).flatten = l := by
  intro fuel
  induction fuel with
  | zero =>
    intro l hl
    have : l = [] := List.eq_nil_of_length_eq_zero (Nat.le_zero.mp hl)
    subst this
    rfl
  | succ fuel ih =>
    intro l hl
    match l with
    | [] => rfl
    | a :: rest =>
      have hlen : ((a :: rest).drop 1000).length ≤ fuel := by
        simp only [List.length_drop, List.length_cons]
        simp only [List.length_cons] at hl
        omega
      simp only [readBatchesAux, List.flatten_cons, ih _ hlen]
      exact List.take_append_drop 1000 (a :: rest)

theorem read_next_batch_flatten {α : Type} (l : List α) :
    (read_next_batch_of_missing_ids l).flatten = l :=
  readBatchesAux_flatten l.length l le_rfl

theorem mem_batch_iff {α : Type} (l : List α) (x : α) :
    (∃ c ∈ read_next_batch_of_missing_ids l, x ∈ c) ↔ x ∈ l := by
  conv_rhs => rw [← read_next_batch_flatten l]
  exact (List.mem_flatten).symm

theorem readBatchesAux_batch_le {α : Type} :
    ∀ (fuel : Nat) (l : List α), l.length ≤ fuel →
      ∀ c ∈ readBatchesAux fuel l, c.length ≤ 1000 := by
  intro fuel
  induction fuel with
  | zero =>
    intro l hl c hc
    have : l = [] := List.eq_nil_of_length_eq_zero (Nat.le_zero.mp hl)
    subst this
    simp [readBatchesAux] at hc
  | succ fuel ih =>
    intro l hl c hc
    match l with
    | [] => simp [readBatchesAux] at hc
    | a :: rest =>
      have hlen : ((a :: rest).drop 1000).length ≤ fuel := by
        simp only [List.length_drop, List.length_cons]
        simp only [List.length_cons] at hl
        omega
      simp only [readBatchesAux, List.mem_cons] at hc
      rcases hc with hc | hc
      · subst hc
        exact List.length_take_le 1000 (a :: rest)
      · exact ih _ hlen c hc

theorem batch_length_le (l : List Nat) (c : List Nat)
    (hc : c ∈ read_next_batch_of_missing_ids l) : c.length ≤ 1000 :=
  readBatchesAux_batch_le l.length l le_rfl c hc

theorem readBatchesAux_length {α : Type} :
    ∀ (fuel : Nat) (l : List α), l.length ≤ fuel →
      (readBatchesAux fuel l).length = (l.length + 999) / 1000 := by
  intro fuel
  induction fuel with
  | zero =>
    intro l hl
    have : l = [] := List.eq_nil_of_length_eq_zero (Nat.le_zero.mp hl)
    subst this
    simp [readBatchesAux]
  | succ fuel ih =>
    intro l hl
    match l with
    | [] => simp [readBatchesAux]
    | a :: rest =>
      have hlen : ((a :: rest).drop 1000).length ≤ fuel := by
        simp only [List.length_drop, List.length_cons]
        simp only [List.length_cons] at hl
        omega
      simp only [readBatchesAux, List.length_cons, ih _ hlen, List.length_drop]
      omega

theorem read_next_batch_count (l : List Nat) :
    (read_next_batch_of_missing_ids l).length = (l.length + 999) / 1000 :=
  readBatchesAux_length l.length l le_rfl

theorem mem_sortFile (l : List Nat) (x : Nat) : x ∈ sortFile l ↔ x ∈ l :=
  List.mem_insertionSort _

theorem mem_sortUniq {α : Type} [LinearOrder α] [DecidableEq α] (l : List α) (x : α) :
    x ∈ sortUniq l ↔ x ∈ l := by
  rw [sortUniq, List.mem_dedup]
  exact List.mem_insertionSort _

theorem mem_file_diff_not_in (a b : List Nat) (x : Nat) :
    x ∈ file_diff_not_in a b ↔ x ∈ a ∧ x ∉ b := by
  simp [file_diff_not_in]

theorem mem_residual_fst (rs att : List Nat) (x : Nat) :
    x ∈ (get_residual_missing_rs_ids_file rs att).1 ↔ x ∈ rs ∧ x ∉ att := by
  rw [get_residual_missing_rs_ids_file, mem_file_diff_not_in, mem_sortFile]
  exact and_congr_right fun _ => not_congr (mem_sortFile att x)

theorem residual_snd_eq (rs att : List Nat) :
    (get_residual_missing_rs_ids_file rs att).2 = sortFile att :=
  rfl

theorem toFinset_sortFile (l : List Nat) : (sortFile l).toFinset = l.toFinset := by
  ext x
  simp [List.mem_toFinset, mem_sortFile]

theorem toFinset_residual_fst (rs att : List Nat) :
    ((get_residual_missing_rs_ids_file rs att).1).toFinset = rs.toFinset \ att.toFinset := by
  ext x
  simp [List.mem_toFinset, mem_residual_fst, Finset.mem_sdiff]

theorem mem_run_in_query {Rec Res : Type} [DecidableEq Res] (staticMatch : Rec → Bool)
    (idsOf : Rec → List Nat) (proj : Rec → Res) (coll : List Rec) (inList : List Nat)
    (x : Res) :
    x ∈ run_in_query staticMatch idsOf proj coll inList ↔
      ∃ r, (r ∈ coll ∧ staticMatch r = true ∧ ∃ i ∈ idsOf r, i ∈ inList) ∧ proj r = x := by
  simp [run_in_query, List.mem_dedup, List.mem_map, List.mem_filter, and_assoc]

theorem mem_get_ids_unbounded {Rec Res : Type} [DecidableEq Res] (missing : List Nat)
    (collections : List (List Rec)) (staticMatch : Rec → Bool) (idsOf : Rec → List Nat)
    (proj : Rec → Res) (extract : Res → Nat) (x : Nat) :
    x ∈ get_ids_from_mongo_for_category missing collections
        (run_in_query staticMatch idsOf proj) extract ↔
      x ∈ single_unbounded_query_results missing collections
        (run_in_query staticMatch idsOf proj) extract := by
  simp only [get_ids_from_mongo_for_category, single_unbounded_query_results,
    List.mem_flatMap, List.mem_map, mem_run_in_query]
  constructor
  · rintro ⟨b, hb, coll, hcoll, res, ⟨r, ⟨hr, hst, i, hii, hib⟩, hproj⟩, hx⟩
    exact ⟨coll, hcoll, res,
      ⟨r, ⟨hr, hst, i, hii, (mem_batch_iff missing i).mp ⟨b, hb, hib⟩⟩, hproj⟩, hx⟩
  · rintro ⟨coll, hcoll, res, ⟨r, ⟨hr, hst, i, hii, him⟩, hproj⟩, hx⟩
    obtain ⟨b, hb, hib⟩ := (mem_batch_iff missing i).mpr him
    exact ⟨b, hb, coll, hcoll, res, ⟨r, ⟨hr, hst, i, hii, hib⟩, hproj⟩, hx⟩

theorem run_residual_toFinset (missing : List Nat) (db : MongoStore) :
    (get_missing_ids_attributions missing db).rs_still_missing_file.toFinset =
      ((missing.toFinset \ (get_rs_with_merged_ss missing db).toFinset)
        \ (get_rs_with_declustered_ss (residual_after_merged missing db) db).toFinset)
        \ (get_rs_with_tandem_repeat_type (residual_after_declustered missing db) db).toFinset := by
  show (residual_after_tandem missing db).toFinset = _
  simp only [residual_after_tandem, residual_after_declustered, residual_after_merged,
    toFinset_residual_fst]

/-! The claims. -/

/-- C1: the claim says a run in which every missing RS ID is attributed exits
with status zero, and any failing run exits non-zero.  The code never assigns
`exit_code` on the success path (it is assigned only in the `except` block),
so the `finally` block's `str(exit_code)` raises `UnboundLocalError` and the
process ends non-zero even on a fully successful run; on the failure path it
calls `sys.exit(-1)`, which is non-zero as claimed. -/
theorem validate_success_path_never_exits_zero :
    validate_rs_release_files ["a\tb\t3"] [] [] [] [] ["3"] emptyStore
      = ProcessOutcome.crashed
          "UnboundLocalError: local variable exit_code referenced before assignment" ∧
    validate_rs_release_files [] [] [] [] [] ["4"] emptyStore
      = ProcessOutcome.exited (-1) := by
  decide

/-- C2: the claim says the run fails if and only if the residual left after
the last subtraction is non-empty, with the count of the remaining IDs.  The
code instead counts `wc -l < missing_ids_file`, the original missing-IDs file:
on a run whose single missing ID 4 is attributed by the merged-SS category
(residual file empty, merged-SS file holds 4) the check still raises, and the
reported count 1 is the size of the initial missing set, not of the
residual. -/
theorem unattributed_check_counts_original_missing_file :
    (get_missing_ids_attributions [4] dbMergedOnly).merged_ss_file = [4] ∧
    (get_missing_ids_attributions [4] dbMergedOnly).rs_still_missing_file = [] ∧
    (get_missing_ids_attributions [4] dbMergedOnly).num_unattributed_missing_rs_ids = 1 ∧
    (get_missing_ids_attributions [4] dbMergedOnly).raised = true := by
  decide

/-- C3 counterexample: with release universe containing the line 1 and store
universe containing the line 2, the diff returns the line 2 (the element of
the second argument not in the first), not the line 1 the claim requires. -/
theorem diff_direction_counterexample :
    diff_release_ids_against_mongo_rs_ids ["1"] ["2"] = ["2"] ∧
    diff_release_ids_against_mongo_rs_ids ["1"] ["2"] ≠ ["1"] := by
  decide

/-- C3 amended: `comm -31 a b | grep -E "^[0-9]+$"` returns exactly the
numeric lines of the second argument `b` (the store universe) that are not in
the first argument `a` (the release universe), so the missing set that seeds
the residual is StoreUniverse minus ReleaseUniverse, not the other way
round. -/
theorem mem_diff_release_ids_iff (a b : List String) (x : String) :
    x ∈ diff_release_ids_against_mongo_rs_ids a b ↔
      x ∈ b ∧ x ∉ a ∧ isNumericLine x = true := by
  constructor
  · intro hx
    have h1 := List.mem_filter.mp hx
    have h2 := List.mem_filter.mp h1.1
    refine ⟨h2.1, ?_, h1.2⟩
    simpa using h2.2
  · rintro ⟨hb, ha, hnum⟩
    exact List.mem_filter.mpr ⟨List.mem_filter.mpr ⟨hb, by simpa using ha⟩, hnum⟩

/-- C4 counterexample: an active-IDs line whose ID token is `rsXYZ` does not
make set-building fail; the token (stripped to `XYZ`) lands in the unique-IDs
set, the diff step is still attempted and computes a result, and a malformed
store-side line is silently dropped by the numeric filter. -/
theorem malformed_id_no_failure_counterexample :
    generate_unique_rs_ids_file ["a\tb\trsXYZ"] [] [] [] [] = ["XYZ"] ∧
    diff_release_ids_against_mongo_rs_ids
      (generate_unique_rs_ids_file ["a\tb\trsXYZ"] [] [] [] []) ["123"] = ["123"] ∧
    diff_release_ids_against_mongo_rs_ids ["1"] ["XYZ"] = [] := by
  decide

/-- C4 amended: no validation happens during set-building (a malformed token
such as `rsXYZ`, stripped to `XYZ`, is carried into the unique-IDs set
without any error), and every line of the diff output is numeric because the
diff's `grep -E "^[0-9]+$"` silently discards non-numeric lines instead of
raising `MalformedIdentifier`. -/
theorem malformed_lines_silently_filtered :
    (∀ (a b : List String) (x : String),
      x ∈ diff_release_ids_against_mongo_rs_ids a b → isNumericLine x = true) ∧
    generate_unique_rs_ids_file ["a\tb\trsXYZ"] [] [] [] [] = ["XYZ"] := by
  constructor
  · intro a b x hx
    exact (List.mem_filter.mp hx).2
  · decide

/-- Witness for C4's amended theorem at the concrete input a = [1], b = [2],
line 2. -/
theorem malformed_lines_silently_filtered_witness :
    ("2" ∈ diff_release_ids_against_mongo_rs_ids ["1"] ["2"]) ∧
      isNumericLine "2" = true :=
  ⟨by decide, malformed_lines_silently_filtered.1 ["1"] ["2"] "2" (by decide)⟩

/-- C5 counterexample: with disjoint A = [1] and B = [2], diff(A∪B, B) is
empty (the diff keeps elements of its second argument not in its first), not
A as the claim requires. -/
theorem diff_union_counterexample :
    (∀ x ∈ ["1"], x ∉ ["2"]) ∧
    diff_release_ids_against_mongo_rs_ids ["1", "2"] ["2"] = [] ∧
    diff_release_ids_against_mongo_rs_ids ["1", "2"] ["2"] ≠ ["1"] := by
  decide

/-- C5 amended: diff(S, S) is always empty; and because diff returns elements
of its second argument not in its first, the algebraic identity for disjoint
A and B holds with the arguments swapped — diff(B, A∪B) = A — provided the
lines of A are numeric (non-numeric lines would be silently filtered). -/
theorem diff_algebra_amended :
    (∀ (S : List String), diff_release_ids_against_mongo_rs_ids S S = []) ∧
    (∀ (A B : List String), (∀ x ∈ A, x ∉ B) → (∀ x ∈ A, isNumericLine x = true) →
      diff_release_ids_against_mongo_rs_ids B (A ++ B) = A) := by
  constructor
  · intro S
    rw [diff_release_ids_against_mongo_rs_ids, comm31]
    have h : S.filter (fun x => decide (x ∉ S)) = [] :=
      List.filter_eq_nil_iff.mpr (fun a ha => by simp [ha])
    rw [h]
    rfl
  · intro A B hdisj hnum
    rw [diff_release_ids_against_mongo_rs_ids, comm31, List.filter_append]
    have hA : A.filter (fun x => decide (x ∉ B)) = A :=
      List.filter_eq_self.mpr (fun a ha => by simp [hdisj a ha])
    have hB : B.filter (fun x => decide (x ∉ B)) = [] :=
      List.filter_eq_nil_iff.mpr (fun a ha => by simp [ha])
    rw [hA, hB, List.append_nil]
    exact List.filter_eq_self.mpr (fun a ha => hnum a ha)

/-- Witness for C5's amended theorem at the concrete disjoint sets A = [1],
B = [2]. -/
theorem diff_algebra_amended_witness :
    (∀ x ∈ ["1"], x ∉ ["2"]) ∧ (∀ x ∈ ["1"], isNumericLine x = true) ∧
      diff_release_ids_against_mongo_rs_ids ["2"] (["1"] ++ ["2"]) = ["1"] :=
  ⟨by decide, by decide, diff_algebra_amended.2 ["1"] ["2"] (by decide) (by decide)⟩

/-- C6 counterexample: with candidate set [4] and a TANDEM_REPEAT record with
accession 4 present in both clustered-variant collections, the merged result
of the tandem-repeat category lists the ID 4 twice — one line per matching
collection — so the merged result is not duplicate-free. -/
theorem merged_result_duplicates_counterexample :
    get_rs_with_tandem_repeat_type [4] dbTandemDup = [4, 4] ∧
    ¬ List.Nodup (get_rs_with_tandem_repeat_type [4] dbTandemDup) := by
  decide

/-- C6 amended: the evaluator splits the candidate list into batches of at
most 1000 whose concatenation is the candidate list (2500 candidates yield
exactly 3 batches), and for each of the four categories the merged result
contains an ID exactly when the single unbounded query (each collection
queried once with the whole candidate list) would return it — no omissions;
however the merged result is a concatenation across batches and collections
and may repeat an ID (only each individual query's results are
deduplicated). -/
theorem batching_equals_unbounded_query :
    (∀ (l c : List Nat), c ∈ read_next_batch_of_missing_ids l → c.length ≤ 1000) ∧
    (∀ (l : List Nat), (read_next_batch_of_missing_ids l).flatten = l) ∧
    (read_next_batch_of_missing_ids (List.range 2500)).length = 3 ∧
    (∀ (missing : List Nat) (db : MongoStore) (x : Nat),
      x ∈ get_rs_with_merged_ss missing db ↔
        x ∈ single_unbounded_query_results missing [db.dbsnpSvoe, db.svoe]
          run_merged_ss_query (fun a => a.headD 0)) ∧
    (∀ (missing : List Nat) (db : MongoStore) (x : Nat),
      x ∈ get_rs_with_declustered_ss missing db ↔
        x ∈ single_unbounded_query_results missing [db.dbsnpSvoe, db.svoe]
          run_declustered_ss_query (fun a => a.headD 0)) ∧
    (∀ (missing : List Nat) (db : MongoStore) (x : Nat),
      x ∈ get_rs_with_tandem_repeat_type missing db ↔
        x ∈ single_unbounded_query_results missing [db.dbsnpCve, db.cve]
          run_tandem_repeat_query (fun a => a)) ∧
    (∀ (missing : List Nat) (db : MongoStore) (x : Nat),
      x ∈ get_rs_with_non_nucleotide_letters missing db ↔
        (x ∈ single_unbounded_query_results missing [db.dbsnpSve, db.sve]
            run_non_nucleotide_sve_query (fun a => a) ∨
          x ∈ single_unbounded_query_results missing [db.dbsnpSvoe, db.svoe]
            run_non_nucleotide_svoe_query (fun a => a.headD 0))) := by
  refine ⟨batch_length_le, read_next_batch_flatten, ?_, ?_, ?_, ?_, ?_⟩
  · rw [read_next_batch_count]
    simp
  · intro missing db x
    exact mem_get_ids_unbounded missing [db.dbsnpSvoe, db.svoe] _ _ _ _ x
  · intro missing db x
    exact mem_get_ids_unbounded missing [db.dbsnpSvoe, db.svoe] _ _ _ _ x
  · intro missing db x
    exact mem_get_ids_unbounded missing [db.dbsnpCve, db.cve] _ _ _ _ x
  · intro missing db x
    rw [get_rs_with_non_nucleotide_letters, mem_sortUniq, List.mem_append]
    exact or_congr (mem_get_ids_unbounded missing [db.dbsnpSve, db.sve] _ _ _ _ x)
      (mem_get_ids_unbounded missing [db.dbsnpSvoe, db.svoe] _ _ _ _ x)

/-- Witness for C6's amended theorem: its batch-size bound applied to the
concrete one-batch candidate list [4]. -/
theorem batching_equals_unbounded_query_witness :
    ([(4 : Nat)] ∈ read_next_batch_of_missing_ids [(4 : Nat)]) ∧
      ([(4 : Nat)]).length ≤ 1000 :=
  ⟨by decide, batching_equals_unbounded_query.1 [4] [4] (by decide)⟩

/-- C7: the residual file is only ever rewritten by
`get_residual_missing_rs_ids_file`, whose output keeps exactly the residual
lines not present in the attributed file: the new residual is a subset of the
old one, its length never grows, and across a whole run the final residual is
a subset of the initial missing set. -/
theorem residual_only_shrinks :
    (∀ (rs att : List Nat), (get_residual_missing_rs_ids_file rs att).1 ⊆ rs) ∧
    (∀ (rs att : List Nat),
      ((get_residual_missing_rs_ids_file rs att).1).length ≤ rs.length) ∧
    (∀ (rs att : List Nat) (x : Nat),
      x ∈ (get_residual_missing_rs_ids_file rs att).1 ↔ x ∈ rs ∧ x ∉ att) ∧
    (∀ (missing : List Nat) (db : MongoStore),
      (get_missing_ids_attributions missing db).rs_still_missing_file ⊆ missing) := by
  refine ⟨?_, ?_, mem_residual_fst, ?_⟩
  · intro rs att x hx
    exact ((mem_residual_fst rs att x).mp hx).1
  · intro rs att
    calc ((get_residual_missing_rs_ids_file rs att).1).length
        ≤ (sortFile rs).length := List.length_filter_le _ _
      _ = rs.length := by rw [sortFile, List.length_insertionSort]
  · intro missing db x hx
    have h3 := (mem_residual_fst (residual_after_declustered missing db)
      (get_rs_with_tandem_repeat_type (residual_after_declustered missing db) db) x).mp hx
    have h2 := (mem_residual_fst (residual_after_merged missing db)
      (get_rs_with_declustered_ss (residual_after_merged missing db) db) x).mp h3.1
    exact ((mem_residual_fst missing (get_rs_with_merged_ss missing db) x).mp h2.1).1

/-- C8 counterexample: with missing set [4] and a store in which only the
non-nucleotide category matches 4, that category's matches are never
subtracted from the residual, so the per-category matched sizes plus the
final residual size total 2 while the initial missing set has size 1. -/
theorem partition_identity_counterexample :
    (get_missing_ids_attributions [4] dbNonNucOnly).merged_ss_file.toFinset.card
      + (get_missing_ids_attributions [4] dbNonNucOnly).declustered_ss_file.toFinset.card
      + (get_missing_ids_attributions [4] dbNonNucOnly).tandem_repeat_file.toFinset.card
      + (get_missing_ids_attributions [4] dbNonNucOnly).non_nucleotide_file.toFinset.card
      + (get_missing_ids_attributions [4] dbNonNucOnly).rs_still_missing_file.toFinset.card
      ≠ ([4] : List Nat).toFinset.card := by
  decide

/-- C8 amended: only the first three categories (merged SS, declustered SS,
tandem repeats) are subtracted from the residual.  Whenever each of those
matched sets is contained in the residual it was queried from, they are
pairwise disjoint, the final residual is the initial missing set minus the
three matched sets, and their cardinalities plus the final residual's
cardinality equal the initial missing set's cardinality.  The fourth
(non-nucleotide) category's matches are never subtracted and take no part in
the identity. -/
theorem partition_identity_amended (missing : List Nat) (db : MongoStore)
    (h1 : (get_missing_ids_attributions missing db).merged_ss_file.toFinset
      ⊆ missing.toFinset)
    (h2 : (get_missing_ids_attributions missing db).declustered_ss_file.toFinset
      ⊆ missing.toFinset \ (get_missing_ids_attributions missing db).merged_ss_file.toFinset)
    (h3 : (get_missing_ids_attributions missing db).tandem_repeat_file.toFinset
      ⊆ (missing.toFinset
          \ (get_missing_ids_attributions missing db).merged_ss_file.toFinset)
          \ (get_missing_ids_attributions missing db).declustered_ss_file.toFinset) :
    Disjoint (get_missing_ids_attributions missing db).merged_ss_file.toFinset
      (get_missing_ids_attributions missing db).declustered_ss_file.toFinset ∧
    Disjoint (get_missing_ids_attributions missing db).merged_ss_file.toFinset
      (get_missing_ids_attributions missing db).tandem_repeat_file.toFinset ∧
    Disjoint (get_missing_ids_attributions missing db).declustered_ss_file.toFinset
      (get_missing_ids_attributions missing db).tandem_repeat_file.toFinset ∧
    (get_missing_ids_attributions missing db).rs_still_missing_file.toFinset
      = ((missing.toFinset
          \ (get_missing_ids_attributions missing db).merged_ss_file.toFinset)
          \ (get_missing_ids_attributions missing db).declustered_ss_file.toFinset)
          \ (get_missing_ids_attributions missing db).tandem_repeat_file.toFinset ∧
    (get_missing_ids_attributions missing db).merged_ss_file.toFinset.card
      + (get_missing_ids_attributions missing db).declustered_ss_file.toFinset.card
      + (get_missing_ids_attributions missing db).tandem_repeat_file.toFinset.card
      + (get_missing_ids_attributions missing db).rs_still_missing_file.toFinset.card
      = missing.toFinset.card := by
  have e1 : (get_missing_ids_attributions missing db).merged_ss_file.toFinset
      = (get_rs_with_merged_ss missing db).toFinset := toFinset_sortFile _
  have e2 : (get_missing_ids_attributions missing db).declustered_ss_file.toFinset
      = (get_rs_with_declustered_ss (residual_after_merged missing db) db).toFinset :=
    toFinset_sortFile _
  have e3 : (get_missing_ids_attributions missing db).tandem_repeat_file.toFinset
      = (get_rs_with_tandem_repeat_type (residual_after_declustered missing db) db).toFinset :=
    toFinset_sortFile _
  have hres : (get_missing_ids_attributions missing db).rs_still_missing_file.toFinset
      = ((missing.toFinset
          \ (get_missing_ids_attributions missing db).merged_ss_file.toFinset)
          \ (get_missing_ids_attributions missing db).declustered_ss_file.toFinset)
          \ (get_missing_ids_attributions missing db).tandem_repeat_file.toFinset := by
    rw [e1, e2, e3]
    exact run_residual_toFinset missing db
  refine ⟨?_, ?_, ?_, hres, ?_⟩
  · exact Finset.disjoint_left.mpr fun a ha1 ha2 => (Finset.mem_sdiff.mp (h2 ha2)).2 ha1
  · exact Finset.disjoint_left.mpr fun a ha1 ha2 =>
      (Finset.mem_sdiff.mp (Finset.mem_sdiff.mp (h3 ha2)).1).2 ha1
  · exact Finset.disjoint_left.mpr fun a ha1 ha2 => (Finset.mem_sdiff.mp (h3 ha2)).2 ha1
  · have c1 := Finset.card_sdiff_add_card_eq_card h1
    have c2 := Finset.card_sdiff_add_card_eq_card h2
    have c3 := Finset.card_sdiff_add_card_eq_card h3
    rw [hres]
    omega

/-- Witness for C8's amended theorem on the run with missing set [4] against
the empty store (all four categories match nothing). -/
theorem partition_identity_amended_witness :
    ((get_missing_ids_attributions [4] emptyStore).merged_ss_file.toFinset
      ⊆ ([4] : List Nat).toFinset) ∧
    ((get_missing_ids_attributions [4] emptyStore).declustered_ss_file.toFinset
      ⊆ ([4] : List Nat).toFinset
        \ (get_missing_ids_attributions [4] emptyStore).merged_ss_file.toFinset) ∧
    ((get_missing_ids_attributions [4] emptyStore).tandem_repeat_file.toFinset
      ⊆ (([4] : List Nat).toFinset
          \ (get_missing_ids_attributions [4] emptyStore).merged_ss_file.toFinset)
          \ (get_missing_ids_attributions [4] emptyStore).declustered_ss_file.toFinset) ∧
    ((get_missing_ids_attributions [4] emptyStore).merged_ss_file.toFinset.card
      + (get_missing_ids_attributions [4] emptyStore).declustered_ss_file.toFinset.card
      + (get_missing_ids_attributions [4] emptyStore).tandem_repeat_file.toFinset.card
      + (get_missing_ids_attributions [4] emptyStore).rs_still_missing_file.toFinset.card
      = ([4] : List Nat).toFinset.card) :=
  ⟨by decide, by decide, by decide,
    (partition_identity_amended [4] emptyStore (by decide) (by decide) (by decide)).2.2.2.2⟩

/-- C9: the reconciliation is a pure function of its inputs — two runs over
the same missing-IDs file and the same store snapshot produce the same
per-category matched files and the same final residual. -/
theorem reconciliation_run_deterministic (missing1 missing2 : List Nat)
    (db1 db2 : MongoStore) (hm : missing1 = missing2) (hdb : db1 = db2) :
    get_missing_ids_attributions missing1 db1 = get_missing_ids_attributions missing2 db2 := by
  rw [hm, hdb]

/-- Witness for C9 at the concrete run on missing set [4] against
`dbMergedOnly`. -/
theorem reconciliation_run_deterministic_witness :
    ([(4 : Nat)] = [(4 : Nat)]) ∧ dbMergedOnly = dbMergedOnly ∧
      get_missing_ids_attributions [4] dbMergedOnly
        = get_missing_ids_attributions [4] dbMergedOnly :=
  ⟨rfl, rfl, reconciliation_run_deterministic [4] [4] dbMergedOnly dbMergedOnly rfl rfl⟩

/-- C10: each residual-subtraction step sorts both files in place before the
difference is computed: afterwards the attributed (matched-IDs) file on disk
is sorted, the multiset of its lines is unchanged (a permutation of the
original), and the new residual is the NOT_IN diff of the sorted residual
against that sorted attributed file. -/
theorem residual_step_sorts_attributed_file (rs att : List Nat) :
    List.Sorted (fun a b => a ≤ b) ((get_residual_missing_rs_ids_file rs att).2) ∧
    ((get_residual_missing_rs_ids_file rs att).2).Perm att ∧
    (get_residual_missing_rs_ids_file rs att).1
      = file_diff_not_in (sortFile rs) ((get_residual_missing_rs_ids_file rs att).2) :=
  ⟨List.sorted_insertionSort _ _, List.perm_insertionSort _ _, rfl⟩

end EvaAccession
